import Mathlib

/-!
Shallow embedding of the signal syscall surface of rCore
(src/kernel/src/syscall/signal.rs) together with the collaborating
kernel services it consumes, and proofs of the specified properties.

Pure kernel state (the process record, the calling thread, the trap
frame) is passed explicitly; user pointers are modelled as either null,
a validated region holding a value, or a region that fails validation;
every syscall additionally reports which value (if any) it copied out
through an output pointer and how many user-memory operations it
performed.
-/

/-- NSIG, the largest signal number of this ABI (spec section 3). -/
def NSIG : Nat := 64

/-- Modelled from the spec: the Signal enumeration and its FromPrimitive
instance are outside src/.  Per spec section 3 a Signal is an integer
identity in [1, NSIG], parsed fallibly from a raw integer
("a total function from a raw integer to \x7bvalid variant, unknown\x7d").
We represent a Signal by its number. -/
def signalFromUsize (n : Nat) : Option Nat :=
  if 1 ≤ n ∧ n ≤ NSIG then some n else none

/-- Modelled from the spec: SIGKILL's number in this (Linux) ABI. -/
def SIGKILL : Nat := 9

/-- Modelled from the spec: SIGSTOP's number in this (Linux) ABI. -/
def SIGSTOP : Nat := 19

/-- Modelled from the spec: the SysError enumeration is outside src/.
These are the error kinds the spec's taxonomy names (section 7), plus
the pointer-validation fault used by the consumed VM capability. -/
inductive SysError where
  | EPERM
  | ESRCH
  | ENOMEM
  | EFAULT
  | EINVAL
deriving DecidableEq, Repr

/-- Modelled from the spec: the errno code of each error kind, "the same
mapping syscalls normally use" (POSIX numbers). -/
def SysError.code : SysError → Int
  | SysError.EPERM => 1
  | SysError.ESRCH => 3
  | SysError.ENOMEM => 12
  | SysError.EFAULT => 14
  | SysError.EINVAL => 22

/-- Modelled from the spec: the FromPrimitive conversion from an errno
code back to an error kind, defined exactly on the codes of the known
kinds (an enumeration's fallible parse, per spec section 9). -/
def sysErrorFromCode (e : Int) : Option SysError :=
  if e = 1 then some SysError.EPERM
  else if e = 3 then some SysError.ESRCH
  else if e = 12 then some SysError.ENOMEM
  else if e = 14 then some SysError.EFAULT
  else if e = 22 then some SysError.EINVAL
  else none

/-- A syscall result: Ok(usize) or Err(SysError). -/
abbrev SysResult := Except SysError Nat

instance : DecidableEq SysResult := fun x y =>
  match x, y with
  | Except.error a, Except.error b =>
      if h : a = b then Decidable.isTrue (congrArg Except.error h)
      else Decidable.isFalse (fun hc => h (Except.error.inj hc))
  | Except.ok a, Except.ok b =>
      if h : a = b then Decidable.isTrue (congrArg Except.ok h)
      else Decidable.isFalse (fun hc => h (Except.ok.inj hc))
  | Except.error _, Except.ok _ => Decidable.isFalse (fun hc => Except.noConfusion hc)
  | Except.ok _, Except.error _ => Decidable.isFalse (fun hc => Except.noConfusion hc)

/-- SignalAction (spec section 3): handler, mask, flags, restorer.
Field widths do not matter for these claims; the record is stored and
copied verbatim. -/
structure SignalAction where
  handler : Nat
  mask : Nat
  flags : Nat
  restorer : Nat
deriving DecidableEq, Repr

/-- The default (all-zero) action used as the getD fallback; never
reachable on in-bounds indices. -/
def dfltAction : SignalAction := ⟨0, 0, 0, 0⟩

/-- SignalStack descriptor (spec section 3): sp, flags, size. -/
structure SignalStack where
  sp : Nat
  flags : Nat
  size : Nat
deriving DecidableEq, Repr

/-- Modelled from the spec: the SignalStackFlags bitflags type is outside
src/; ONSTACK is its bit with (Linux ABI) value 1, the flag
from_bits_truncate retains and the code tests. -/
def ONSTACK : Nat := 1

/-- The per-process state the signal syscalls touch: the disposition
table (modelled from the spec as a fixed-length table indexed by the
unadjusted signal number, NSIG + 1 slots), the process group id, and
the alt-stack descriptor. -/
structure Process where
  dispositions : List SignalAction
  pgid : Int
  sigaltstack : SignalStack
deriving DecidableEq, Repr

/-- Well-formedness of a process record: the disposition table has its
fixed length NSIG + 1. -/
def ProcessWF (p : Process) : Prop := p.dispositions.length = NSIG + 1

/-- The per-thread state: the signal mask (a 64-bit Sigset). -/
structure Thread where
  sig_mask : Nat
deriving DecidableEq, Repr

/-- A user pointer passed for reading: null, a validated region holding
a value, or a region failing validation. -/
inductive RPtr (α : Type) where
  | null
  | addr (v : α)
  | bad
deriving DecidableEq, Repr

/-- A user pointer passed for writing: null, a validated writable
region, or a region failing validation. -/
inductive WPtr where
  | null
  | addr
  | bad
deriving DecidableEq, Repr

/-- Interpret a u64 value as a signed 64-bit integer (the
`as isize` cast). -/
def toI64 (n : Nat) : Int :=
  if n < 2 ^ 63 then (n : Int) else (n : Int) - 2 ^ 64

/-- Truncate an integer to a signed 32-bit integer (the `as i32` cast). -/
def toI32 (x : Int) : Int :=
  (x + 2 ^ 31) % 2 ^ 32 - 2 ^ 31

/-- Outcome of sys_rt_sigaction: result, updated process record, the
action copied out through oldact (if any), and the number of
user-memory operations performed. -/
structure SigactionOut where
  res : SysResult
  proc : Process
  oldOut : Option SignalAction
  touched : Nat
deriving DecidableEq, Repr

/-- The second half of sys_rt_sigaction: the `if !act.is_null()` block
storing the new action into the disposition table. -/
def sigactionStore (proc : Process) (signum : Nat) (act : RPtr SignalAction)
    (oldOut : Option SignalAction) (touched : Nat) : SigactionOut :=
  match act with
  | RPtr.null => ⟨Except.ok 0, proc, oldOut, touched⟩
  | RPtr.bad => ⟨Except.error SysError.EFAULT, proc, oldOut, touched + 1⟩
  | RPtr.addr a =>
      ⟨Except.ok 0, { proc with dispositions := proc.dispositions.set signum a },
        oldOut, touched + 1⟩

/-- sys_rt_sigaction (signal.rs lines 11-46): parse signum; reject
SIGKILL/SIGSTOP and sigsetsize != 8; copy the old disposition out
through oldact; store the new action from act. -/
def sys_rt_sigaction (proc : Process) (signum : Nat) (act : RPtr SignalAction)
    (oldact : WPtr) (sigsetsize : Nat) : SigactionOut :=
  match signalFromUsize signum with
  | none => ⟨Except.error SysError.EINVAL, proc, none, 0⟩
  | some sg =>
    if sg = SIGKILL ∨ sg = SIGSTOP ∨ sigsetsize ≠ 8 then
      ⟨Except.error SysError.EINVAL, proc, none, 0⟩
    else
      match oldact with
      | WPtr.bad => ⟨Except.error SysError.EFAULT, proc, none, 1⟩
      | WPtr.null => sigactionStore proc signum act none 0
      | WPtr.addr =>
          sigactionStore proc signum act
            (some (proc.dispositions.getD signum dfltAction)) 1

/-- Outcome of sys_rt_sigprocmask: result, updated thread, the mask
copied out through oldset (if any), user-memory operation count. -/
structure ProcmaskOut where
  res : SysResult
  thread : Thread
  oldOut : Option Nat
  touched : Nat
deriving DecidableEq, Repr

/-- The `how` constants of signal.rs lines 81-83. -/
def BLOCK : Nat := 0

/-- The UNBLOCK constant. -/
def UNBLOCK : Nat := 1

/-- The SETMASK constant. -/
def SETMASK : Nat := 2

/-- Sigset.remove_set on 64-bit masks: clear in m every bit set in s
(m AND NOT s within 64 bits). -/
def removeSet (m s : Nat) : Nat :=
  m &&& (s ^^^ (2 ^ 64 - 1))

/-- The `if !set.is_null()` block of sys_rt_sigprocmask: dispatch on
how over the validated new set. -/
def sigprocmaskApply (th : Thread) (how : Nat) (set : RPtr Nat)
    (oldOut : Option Nat) (touched : Nat) : ProcmaskOut :=
  match set with
  | RPtr.null => ⟨Except.ok 0, th, oldOut, touched⟩
  | RPtr.bad => ⟨Except.error SysError.EFAULT, th, oldOut, touched + 1⟩
  | RPtr.addr s =>
      if how = BLOCK then
        ⟨Except.ok 0, ⟨th.sig_mask ||| s⟩, oldOut, touched + 1⟩
      else if how = UNBLOCK then
        ⟨Except.ok 0, ⟨removeSet th.sig_mask s⟩, oldOut, touched + 1⟩
      else if how = SETMASK then
        ⟨Except.ok 0, ⟨s⟩, oldOut, touched + 1⟩
      else
        ⟨Except.error SysError.EINVAL, th, oldOut, touched + 1⟩

/-- sys_rt_sigprocmask (signal.rs lines 61-92): reject
sigsetsize != 8 first; copy the old mask out; apply the requested
mask update from set according to how. -/
def sys_rt_sigprocmask (th : Thread) (how : Nat) (set : RPtr Nat)
    (oldset : WPtr) (sigsetsize : Nat) : ProcmaskOut :=
  if sigsetsize ≠ 8 then ⟨Except.error SysError.EINVAL, th, none, 0⟩
  else
    match oldset with
    | WPtr.bad => ⟨Except.error SysError.EFAULT, th, none, 1⟩
    | WPtr.null =>
        sigprocmaskApply th how set none 0
    | WPtr.addr =>
        sigprocmaskApply th how set (some th.sig_mask) 1

/-- The trap frame; only the fields the signal code touches are kept
distinct (the primary result register rax, as a u64, and the stack
pointer); all remaining saved registers are abstracted into one field
so that whole-frame replacement is still observable. -/
structure TrapFrame where
  rax : Nat
  sp : Nat
  rest : Nat
deriving DecidableEq, Repr

/-- SignalFrame (spec section 3): the trap-frame snapshot consumed by
sigreturn (its further bookkeeping fields are not read by this code). -/
structure SignalFrame where
  tf : TrapFrame
deriving DecidableEq, Repr

/-- sys_rt_sigreturn (signal.rs lines 48-59): read the SignalFrame at
sp - 8, replace the whole trap frame with the frame's saved one, and
decode the restored rax as the syscall result.  The Rust code unwraps
the errno-to-error-kind conversion; a failing conversion panics, which
we model as none. -/
def sys_rt_sigreturn (mem : Nat → SignalFrame) (tf : TrapFrame) :
    Option (SysResult × TrapFrame) :=
  let frame := mem (tf.sp - 8)
  let ret := toI64 frame.tf.rax
  if 0 ≤ ret then some (Except.ok ret.toNat, frame.tf)
  else
    match sysErrorFromCode (-ret) with
    | some e => some (Except.error e, frame.tf)
    | none => none

/-- Siginfo (spec section 3): signo, errno, origin code.  The auxiliary
union payload is default-initialised by this code and carries no
information. -/
structure Siginfo where
  signo : Int
  errno : Int
  code : Int
deriving DecidableEq, Repr

/-- Modelled from the spec: the SI_USER origin tag (code = SI_USER for
all signals raised through kill/tkill), numerically 0 in this ABI. -/
def SI_USER : Int := 0

/-- The Siginfo kill and tkill construct for signal number signum. -/
def mkSiginfo (signum : Nat) : Siginfo :=
  ⟨(signum : Int), 0, SI_USER⟩

/-- One call of the delivery engine: the target process (by pid), the
thread hint, and the info record (spec section 4.4: hint >= 0 targets
exactly that thread, hint -1 is process-directed). -/
structure Delivery where
  target : Nat
  hint : Int
  info : Siginfo
deriving DecidableEq, Repr

/-- Modelled from the spec: one row of the global process table — the
liveness of the weak reference and the process group id (an i32). -/
structure PEntry where
  alive : Bool
  pgid : Int
deriving DecidableEq, Repr

/-- Modelled from the spec: the externally owned process/thread lookup
services — the global process table (pid to weak entry) and the
thread-to-owning-process map. -/
structure Env where
  table : List (Nat × PEntry)
  threads : List (Nat × Nat)
deriving DecidableEq, Repr

/-- Modelled from the spec: resolve a live process by id ("resolve
process by id"; a stale entry resolves to not-found). -/
def process (env : Env) (pid : Nat) : Option Nat :=
  match env.table.lookup pid with
  | some e => if e.alive then some pid else none
  | none => none

/-- Modelled from the spec: resolve a process group by id ("returns set
of member processes, possibly empty"). -/
def process_group (env : Env) (pgid : Int) : List Nat :=
  (env.table.filter (fun pr => pr.2.alive && pr.2.pgid == pgid)).map Prod.fst

/-- Modelled from the spec: the processes whose table entries survive
the liveness upgrade, in table order (the kill -1 broadcast scope). -/
def live_processes (env : Env) : List Nat :=
  (env.table.filter (fun pr => pr.2.alive)).map Prod.fst

/-- Modelled from the spec: resolve the owning process of a thread id
("resolve owning process of a thread id"). -/
def process_of (env : Env) (tid : Nat) : Option Nat :=
  env.threads.lookup tid

/-- Outcome of sys_kill / sys_tkill: the result and the sequence of
delivery-engine calls made. -/
structure KillOut where
  res : SysResult
  sent : List Delivery
deriving DecidableEq, Repr

/-- sys_kill (signal.rs lines 95-147): parse signum, then dispatch on
the sign of pid; pid > 0 targets one process (`pid as usize`), pid = 0
the caller's group, pid = -1 every upgradable table entry, and any
other pid the group `(-pid) as i32` — note the truncating i32 cast of
the source. -/
def sys_kill (env : Env) (callerPgid : Int) (pid : Int) (signum : Nat) : KillOut :=
  match signalFromUsize signum with
  | none => ⟨Except.error SysError.EINVAL, []⟩
  | some _ =>
    if pid > 0 then
      match process env pid.toNat with
      | some p => ⟨Except.ok 0, [⟨p, -1, mkSiginfo signum⟩]⟩
      | none => ⟨Except.error SysError.ESRCH, []⟩
    else if pid = 0 then
      ⟨Except.ok 0, (process_group env callerPgid).map (fun p => ⟨p, -1, mkSiginfo signum⟩)⟩
    else if pid = -1 then
      ⟨Except.ok 0, (live_processes env).map (fun p => ⟨p, -1, mkSiginfo signum⟩)⟩
    else
      match process_group env (toI32 (-pid)) with
      | [] => ⟨Except.error SysError.ESRCH, []⟩
      | g => ⟨Except.ok 0, g.map (fun p => ⟨p, -1, mkSiginfo signum⟩)⟩

/-- sys_tkill (signal.rs lines 149-171): parse signum, resolve the
owning process of tid, and deliver with thread hint `tid as isize`
(note the wrapping usize-to-isize cast of the source). -/
def sys_tkill (env : Env) (tid : Nat) (signum : Nat) : KillOut :=
  match signalFromUsize signum with
  | none => ⟨Except.error SysError.EINVAL, []⟩
  | some _ =>
    match process_of env tid with
    | some p => ⟨Except.ok 0, [⟨p, toI64 tid, mkSiginfo signum⟩]⟩
    | none => ⟨Except.error SysError.ESRCH, []⟩

/-- MINSIGSTKSZ (signal.rs line 174). -/
def MINSIGSTKSZ : Nat := 2048

/-- Outcome of sys_sigaltstack: result, updated process record, the
descriptor copied out through old_ss (if any), user-memory operation
count. -/
structure SigaltOut where
  res : SysResult
  proc : Process
  oldOut : Option SignalStack
  touched : Nat
deriving DecidableEq, Repr

/-- The `if !ss.is_null()` block of sys_sigaltstack: the ENOMEM guard
check, the allowed-flags check against 0x8000002, the ONSTACK check on
the currently stored descriptor, then the replacement. -/
def sigaltstackStore (proc : Process) (ss : RPtr SignalStack)
    (oldOut : Option SignalStack) (touched : Nat) : SigaltOut :=
  match ss with
  | RPtr.null => ⟨Except.ok 0, proc, oldOut, touched⟩
  | RPtr.bad => ⟨Except.error SysError.EFAULT, proc, oldOut, touched + 1⟩
  | RPtr.addr s =>
      if s.flags &&& 2 ≠ 0 ∧ s.size < MINSIGSTKSZ then
        ⟨Except.error SysError.ENOMEM, proc, oldOut, touched + 1⟩
      else if s.flags ^^^ (s.flags &&& 0x8000002) ≠ 0 then
        ⟨Except.error SysError.EINVAL, proc, oldOut, touched + 1⟩
      else if proc.sigaltstack.flags &&& ONSTACK ≠ 0 then
        ⟨Except.error SysError.EPERM, proc, oldOut, touched + 1⟩
      else
        ⟨Except.ok 0, { proc with sigaltstack := s }, oldOut, touched + 1⟩

/-- sys_sigaltstack (signal.rs lines 173-198): copy the old descriptor
out through old_ss first, then validate and store the new one from ss. -/
def sys_sigaltstack (proc : Process) (ss : RPtr SignalStack) (old_ss : WPtr) : SigaltOut :=
  match old_ss with
  | WPtr.bad => ⟨Except.error SysError.EFAULT, proc, none, 1⟩
  | WPtr.null => sigaltstackStore proc ss none 0
  | WPtr.addr => sigaltstackStore proc ss (some proc.sigaltstack) 1

/-- A well-formed process record used to instantiate witnesses: a full
disposition table of default actions, group 1, no alt stack. -/
def procW : Process := ⟨List.replicate 65 dfltAction, 1, ⟨0, 0, 0⟩⟩

/-- A concrete environment: one live process 10 in group 5, no threads. -/
def envGrp : Env := ⟨[(10, ⟨true, 5⟩)], []⟩

/-- A concrete environment: live process 3 in group 1 owning thread 7. -/
def envThr : Env := ⟨[(3, ⟨true, 1⟩)], [(7, 3)]⟩

/-- A concrete environment where the thread id usize::MAX resolves to
live process 10. -/
def envWrap : Env := ⟨[(10, ⟨true, 1⟩)], [(18446744073709551615, 10)]⟩

/-- A user stack whose SignalFrame stores rax = -3 (ESRCH) as a u64. -/
def memErr3 : Nat → SignalFrame := fun _ => ⟨⟨2 ^ 64 - 3, 0, 0⟩⟩

/-- A user stack whose SignalFrame stores a negative rax whose
magnitude 2^20 is no error kind's code. -/
def memHuge : Nat → SignalFrame := fun _ => ⟨⟨2 ^ 64 - 2 ^ 20, 0, 0⟩⟩

/-- A concrete trap frame at the moment of the sigreturn call. -/
def tfW : TrapFrame := ⟨0, 100, 0⟩

theorem signalFromUsize_some {n sg : Nat} (h : signalFromUsize n = some sg) :
    sg = n ∧ 1 ≤ n ∧ n ≤ NSIG := by
  unfold signalFromUsize at h
  by_cases hb : 1 ≤ n ∧ n ≤ NSIG
  · rw [if_pos hb] at h
    exact ⟨(Option.some.inj h).symm, hb⟩
  · rw [if_neg hb] at h
    exact absurd h (by simp)

theorem getD_set_self_of_lt {α : Type} (l : List α) (i : Nat) (a d : α)
    (h : i < l.length) : (l.set i a).getD i d = a := by
  induction l generalizing i with
  | nil => simp at h
  | cons x xs ih =>
    cases i with
    | zero => rfl
    | succ n => simpa [List.getD] using ih n (by simpa using h)


/-- Claim C10: for every signum accepted by sys_rt_sigaction's
validation (indeed for every known Signal), the unadjusted index signum
used for the old-action read and the new-action store is within the
bounds of the disposition table, including the largest valid signal
number NSIG = 64. -/
theorem sigaction_index_in_bounds (signum sg : Nat)
    (hv : signalFromUsize signum = some sg) (proc : Process)
    (hwf : ProcessWF proc) : signum < proc.dispositions.length := by
  obtain ⟨-, -, hle⟩ := signalFromUsize_some hv
  unfold ProcessWF NSIG at hwf
  unfold NSIG at hle
  omega

/-- Claim C10 witness: the largest valid signal number 64 indexes the
table of a well-formed process in bounds. -/
theorem sigaction_index_in_bounds_witness : 64 < procW.dispositions.length :=
  sigaction_index_in_bounds 64 64 (by decide) procW (by rfl)

/-- Claim C4: sys_rt_sigaction returns InvalidArgument and leaves the
process record (hence the disposition table) completely unchanged, with
no copy-out and no user-memory access, whenever signum is unknown, or
signum is SIGKILL or SIGSTOP (for any non-null act), or
sigsetsize is not 8. -/
theorem sigaction_reject (proc : Process) (signum : Nat)
    (act : RPtr SignalAction) (oldact : WPtr) (sigsetsize : Nat)
    (h : signalFromUsize signum = none ∨
      ((signum = SIGKILL ∨ signum = SIGSTOP) ∧ act ≠ RPtr.null) ∨
      sigsetsize ≠ 8) :
    sys_rt_sigaction proc signum act oldact sigsetsize =
      ⟨Except.error SysError.EINVAL, proc, none, 0⟩ := by
  cases hM : signalFromUsize signum with
  | none => simp [sys_rt_sigaction, hM]
  | some sg =>
    have hsg := (signalFromUsize_some hM).1
    have hcond : sg = SIGKILL ∨ sg = SIGSTOP ∨ sigsetsize ≠ 8 := by
      rcases h with h1 | ⟨hks, -⟩ | hsz
      · rw [h1] at hM; exact absurd hM (by simp)
      · rcases hks with h9 | h19
        · exact Or.inl (by rw [hsg, h9])
        · exact Or.inr (Or.inl (by rw [hsg, h19]))
      · exact Or.inr (Or.inr hsz)
    simp only [sys_rt_sigaction, hM]
    rw [if_pos hcond]

/-- Claim C4 witness: changing SIGKILL's disposition with a non-null
act and sigsetsize 8 is rejected with InvalidArgument and no effect. -/
theorem sigaction_reject_witness :
    sys_rt_sigaction procW 9 (RPtr.addr ⟨1, 2, 3, 4⟩) WPtr.addr 8 =
      ⟨Except.error SysError.EINVAL, procW, none, 0⟩ :=
  sigaction_reject procW 9 (RPtr.addr ⟨1, 2, 3, 4⟩) WPtr.addr 8
    (Or.inr (Or.inl ⟨Or.inl rfl, by decide⟩))

/-- Claim C7: for every sigsetsize other than 8, sys_rt_sigaction (with
a known signum) and sys_rt_sigprocmask both return InvalidArgument with
zero user-memory operations (no pointer validated or dereferenced), no
copy-out, and the kernel signal state (process record, thread mask)
unchanged. -/
theorem sigsetsize_guard (proc : Process) (th : Thread) (signum sg : Nat)
    (act : RPtr SignalAction) (oldact : WPtr) (how : Nat) (set : RPtr Nat)
    (oldset : WPtr) (sigsetsize : Nat) (hsz : sigsetsize ≠ 8)
    (hsig : signalFromUsize signum = some sg) :
    sys_rt_sigaction proc signum act oldact sigsetsize =
      ⟨Except.error SysError.EINVAL, proc, none, 0⟩ ∧
    sys_rt_sigprocmask th how set oldset sigsetsize =
      ⟨Except.error SysError.EINVAL, th, none, 0⟩ := by
  constructor
  · simp only [sys_rt_sigaction, hsig]
    rw [if_pos (Or.inr (Or.inr hsz))]
  · simp only [sys_rt_sigprocmask]
    rw [if_pos hsz]

/-- Claim C7 witness: sigsetsize 4 is rejected by both calls with no
user-memory access and no state change. -/
theorem sigsetsize_guard_witness :
    sys_rt_sigaction procW 15 (RPtr.addr ⟨1, 2, 3, 4⟩) WPtr.addr 4 =
      ⟨Except.error SysError.EINVAL, procW, none, 0⟩ ∧
    sys_rt_sigprocmask ⟨5⟩ 0 (RPtr.addr 3) WPtr.addr 4 =
      ⟨Except.error SysError.EINVAL, ⟨5⟩, none, 0⟩ :=
  sigsetsize_guard procW ⟨5⟩ 15 15 (RPtr.addr ⟨1, 2, 3, 4⟩) WPtr.addr 0
    (RPtr.addr 3) WPtr.addr 4 (by decide) (by decide)

theorem sigaction_addr_addr_eq (q : Process) (signum : Nat) (a : SignalAction)
    (hv : signalFromUsize signum = some signum)
    (hcond : ¬(signum = SIGKILL ∨ signum = SIGSTOP ∨ (8 : Nat) ≠ 8)) :
    sys_rt_sigaction q signum (RPtr.addr a) WPtr.addr 8 =
      ⟨Except.ok 0, { q with dispositions := q.dispositions.set signum a },
        some (q.dispositions.getD signum dfltAction), 2⟩ := by
  simp only [sys_rt_sigaction, hv]
  rw [if_neg hcond]
  rfl

/-- Claim C3: for every valid signum outside SIGKILL/SIGSTOP and every
action A, setting A while reading the old action out, then calling
again with that old action, reads back exactly A: the copy-out always
sees the pre-call disposition, so set-then-restore round-trips. -/
theorem sigaction_set_then_restore (proc : Process) (hwf : ProcessWF proc)
    (signum : Nat) (A : SignalAction)
    (hv : signalFromUsize signum = some signum)
    (hk : signum ≠ SIGKILL) (hst : signum ≠ SIGSTOP) :
    (sys_rt_sigaction proc signum (RPtr.addr A) WPtr.addr 8).res = Except.ok 0 ∧
    ∃ old1,
      (sys_rt_sigaction proc signum (RPtr.addr A) WPtr.addr 8).oldOut = some old1 ∧
      (sys_rt_sigaction (sys_rt_sigaction proc signum (RPtr.addr A) WPtr.addr 8).proc
        signum (RPtr.addr old1) WPtr.addr 8).oldOut = some A := by
  have hcond : ¬(signum = SIGKILL ∨ signum = SIGSTOP ∨ (8 : Nat) ≠ 8) := by
    simp [hk, hst]
  have hlt : signum < proc.dispositions.length :=
    sigaction_index_in_bounds signum signum hv proc hwf
  rw [sigaction_addr_addr_eq proc signum A hv hcond]
  refine ⟨rfl, proc.dispositions.getD signum dfltAction, rfl, ?_⟩
  rw [sigaction_addr_addr_eq _ signum _ hv hcond]
  exact congrArg some (getD_set_self_of_lt proc.dispositions signum A dfltAction hlt)

/-- Claim C3 witness: installing a concrete action for signal 15 and
restoring the read-out old action reads back exactly that action. -/
theorem sigaction_set_then_restore_witness :
    (sys_rt_sigaction procW 15 (RPtr.addr ⟨1, 2, 3, 4⟩) WPtr.addr 8).res = Except.ok 0 ∧
    ∃ old1,
      (sys_rt_sigaction procW 15 (RPtr.addr ⟨1, 2, 3, 4⟩) WPtr.addr 8).oldOut = some old1 ∧
      (sys_rt_sigaction (sys_rt_sigaction procW 15 (RPtr.addr ⟨1, 2, 3, 4⟩) WPtr.addr 8).proc
        15 (RPtr.addr old1) WPtr.addr 8).oldOut = some ⟨1, 2, 3, 4⟩ :=
  sigaction_set_then_restore procW (by rfl) 15 ⟨1, 2, 3, 4⟩ (by decide)
    (by decide) (by decide)

theorem removeSet_testBit (m s i : Nat) (hi : i < 64) :
    (removeSet m s).testBit i = (m.testBit i && !(s.testBit i)) := by
  have ht : Nat.testBit 18446744073709551615 i = true := by
    have he : (18446744073709551615 : Nat) = 2 ^ 64 - 1 := by norm_num
    rw [he, Nat.testBit_two_pow_sub_one]
    simpa using hi
  simp [removeSet, Nat.testBit_land, Nat.testBit_xor, ht]

theorem sigprocmask_addr_eq (th : Thread) (how s : Nat) (oldset : WPtr)
    (hb : oldset ≠ WPtr.bad) :
    sys_rt_sigprocmask th how (RPtr.addr s) oldset 8 =
      ⟨if how = BLOCK ∨ how = UNBLOCK ∨ how = SETMASK then Except.ok 0
         else Except.error SysError.EINVAL,
       if how = BLOCK then ⟨th.sig_mask ||| s⟩
         else if how = UNBLOCK then ⟨removeSet th.sig_mask s⟩
         else if how = SETMASK then ⟨s⟩ else th,
       if oldset = WPtr.addr then some th.sig_mask else none,
       if oldset = WPtr.addr then 2 else 1⟩ := by
  cases oldset with
  | bad => exact absurd rfl hb
  | null =>
      by_cases h0 : how = BLOCK <;> by_cases h1 : how = UNBLOCK <;>
        by_cases h2 : how = SETMASK <;>
        simp_all [sys_rt_sigprocmask, sigprocmaskApply, BLOCK, UNBLOCK, SETMASK]
  | addr =>
      by_cases h0 : how = BLOCK <;> by_cases h1 : how = UNBLOCK <;>
        by_cases h2 : how = SETMASK <;>
        simp_all [sys_rt_sigprocmask, sigprocmaskApply, BLOCK, UNBLOCK, SETMASK]

/-- Claim C5: with sigsetsize 8 and a non-null set, sys_rt_sigprocmask
applies exactly one of BLOCK (mask union), UNBLOCK (clear the set's
bits), SETMASK (replace), and rejects any other how with
InvalidArgument leaving the mask unchanged; consequently two BLOCK
calls accumulate old OR S1 OR S2 and a subsequent SETMASK leaves
exactly S3. -/
theorem sigprocmask_spec (th : Thread) (how S S1 S2 S3 : Nat) (oldset : WPtr)
    (hb : oldset ≠ WPtr.bad) :
    (how = BLOCK →
      (sys_rt_sigprocmask th how (RPtr.addr S) oldset 8).res = Except.ok 0 ∧
      (sys_rt_sigprocmask th how (RPtr.addr S) oldset 8).thread.sig_mask =
        th.sig_mask ||| S) ∧
    (how = UNBLOCK →
      (sys_rt_sigprocmask th how (RPtr.addr S) oldset 8).res = Except.ok 0 ∧
      (sys_rt_sigprocmask th how (RPtr.addr S) oldset 8).thread.sig_mask =
        removeSet th.sig_mask S ∧
      ∀ i, i < 64 →
        (sys_rt_sigprocmask th how (RPtr.addr S) oldset 8).thread.sig_mask.testBit i =
          (th.sig_mask.testBit i && !(S.testBit i))) ∧
    (how = SETMASK →
      (sys_rt_sigprocmask th how (RPtr.addr S) oldset 8).res = Except.ok 0 ∧
      (sys_rt_sigprocmask th how (RPtr.addr S) oldset 8).thread.sig_mask = S) ∧
    (how ≠ BLOCK → how ≠ UNBLOCK → how ≠ SETMASK →
      (sys_rt_sigprocmask th how (RPtr.addr S) oldset 8).res =
        Except.error SysError.EINVAL ∧
      (sys_rt_sigprocmask th how (RPtr.addr S) oldset 8).thread = th) ∧
    (sys_rt_sigprocmask
      (sys_rt_sigprocmask th BLOCK (RPtr.addr S1) oldset 8).thread
      BLOCK (RPtr.addr S2) oldset 8).thread.sig_mask =
        th.sig_mask ||| S1 ||| S2 ∧
    (sys_rt_sigprocmask
      (sys_rt_sigprocmask
        (sys_rt_sigprocmask th BLOCK (RPtr.addr S1) oldset 8).thread
        BLOCK (RPtr.addr S2) oldset 8).thread
      SETMASK (RPtr.addr S3) oldset 8).thread.sig_mask = S3 := by
  refine ⟨?_, ?_, ?_, ?_, ?_, ?_⟩
  · intro h0
    rw [sigprocmask_addr_eq th how S oldset hb]
    simp [h0]
  · intro h1
    rw [sigprocmask_addr_eq th how S oldset hb]
    constructor
    · simp [h1, UNBLOCK, BLOCK]
    constructor
    · simp [h1, UNBLOCK, BLOCK]
    · intro i hi
      simpa [h1, UNBLOCK, BLOCK] using removeSet_testBit th.sig_mask S i hi
  · intro h2
    rw [sigprocmask_addr_eq th how S oldset hb]
    simp [h2, SETMASK, UNBLOCK, BLOCK]
  · intro h0 h1 h2
    rw [sigprocmask_addr_eq th how S oldset hb]
    simp [h0, h1, h2]
  · rw [sigprocmask_addr_eq th BLOCK S1 oldset hb]
    rw [sigprocmask_addr_eq _ BLOCK S2 oldset hb]
    simp
  · rw [sigprocmask_addr_eq th BLOCK S1 oldset hb]
    rw [sigprocmask_addr_eq _ BLOCK S2 oldset hb]
    rw [sigprocmask_addr_eq _ SETMASK S3 oldset hb]
    simp [SETMASK, UNBLOCK, BLOCK]

/-- Claim C5 witness: concrete mask algebra — blocking 3 over mask 5
gives 7; unblocking bit 0 from 7 clears it; setting mask 9 yields 9;
how = 7 is rejected; BLOCK 1 then BLOCK 2 over mask 4 gives 7 and a
final SETMASK 9 gives 9. -/
theorem sigprocmask_spec_witness :
    ((0 : Nat) = BLOCK →
      (sys_rt_sigprocmask ⟨5⟩ 0 (RPtr.addr 3) WPtr.addr 8).res = Except.ok 0 ∧
      (sys_rt_sigprocmask ⟨5⟩ 0 (RPtr.addr 3) WPtr.addr 8).thread.sig_mask =
        Thread.sig_mask ⟨5⟩ ||| 3) ∧
    ((0 : Nat) = UNBLOCK →
      (sys_rt_sigprocmask ⟨5⟩ 0 (RPtr.addr 3) WPtr.addr 8).res = Except.ok 0 ∧
      (sys_rt_sigprocmask ⟨5⟩ 0 (RPtr.addr 3) WPtr.addr 8).thread.sig_mask =
        removeSet (Thread.sig_mask ⟨5⟩) 3 ∧
      ∀ i, i < 64 →
        (sys_rt_sigprocmask ⟨5⟩ 0 (RPtr.addr 3) WPtr.addr 8).thread.sig_mask.testBit i =
          (Nat.testBit (Thread.sig_mask ⟨5⟩) i && !(Nat.testBit 3 i))) ∧
    ((0 : Nat) = SETMASK →
      (sys_rt_sigprocmask ⟨5⟩ 0 (RPtr.addr 3) WPtr.addr 8).res = Except.ok 0 ∧
      (sys_rt_sigprocmask ⟨5⟩ 0 (RPtr.addr 3) WPtr.addr 8).thread.sig_mask = 3) ∧
    ((0 : Nat) ≠ BLOCK → (0 : Nat) ≠ UNBLOCK → (0 : Nat) ≠ SETMASK →
      (sys_rt_sigprocmask ⟨5⟩ 0 (RPtr.addr 3) WPtr.addr 8).res =
        Except.error SysError.EINVAL ∧
      (sys_rt_sigprocmask ⟨5⟩ 0 (RPtr.addr 3) WPtr.addr 8).thread = ⟨5⟩) ∧
    (sys_rt_sigprocmask
      (sys_rt_sigprocmask ⟨5⟩ BLOCK (RPtr.addr 1) WPtr.addr 8).thread
      BLOCK (RPtr.addr 2) WPtr.addr 8).thread.sig_mask =
        Thread.sig_mask ⟨5⟩ ||| 1 ||| 2 ∧
    (sys_rt_sigprocmask
      (sys_rt_sigprocmask
        (sys_rt_sigprocmask ⟨5⟩ BLOCK (RPtr.addr 1) WPtr.addr 8).thread
        BLOCK (RPtr.addr 2) WPtr.addr 8).thread
      SETMASK (RPtr.addr 9) WPtr.addr 8).thread.sig_mask = 9 :=
  sigprocmask_spec ⟨5⟩ 0 3 1 2 9 WPtr.addr (by decide)

theorem sigaltstack_addr_eq (proc : Process) (s : SignalStack) (old_ss : WPtr)
    (hb : old_ss ≠ WPtr.bad) :
    sys_sigaltstack proc (RPtr.addr s) old_ss =
      ⟨if s.flags &&& 2 ≠ 0 ∧ s.size < MINSIGSTKSZ then Except.error SysError.ENOMEM
         else if s.flags ^^^ (s.flags &&& 0x8000002) ≠ 0 then Except.error SysError.EINVAL
         else if proc.sigaltstack.flags &&& ONSTACK ≠ 0 then Except.error SysError.EPERM
         else Except.ok 0,
       if s.flags &&& 2 ≠ 0 ∧ s.size < MINSIGSTKSZ then proc
         else if s.flags ^^^ (s.flags &&& 0x8000002) ≠ 0 then proc
         else if proc.sigaltstack.flags &&& ONSTACK ≠ 0 then proc
         else { proc with sigaltstack := s },
       if old_ss = WPtr.addr then some proc.sigaltstack else none,
       if old_ss = WPtr.addr then 2 else 1⟩ := by
  have step : ∀ oldOut t,
      sigaltstackStore proc (RPtr.addr s) oldOut t =
        ⟨if s.flags &&& 2 ≠ 0 ∧ s.size < MINSIGSTKSZ then Except.error SysError.ENOMEM
           else if s.flags ^^^ (s.flags &&& 0x8000002) ≠ 0 then Except.error SysError.EINVAL
           else if proc.sigaltstack.flags &&& ONSTACK ≠ 0 then Except.error SysError.EPERM
           else Except.ok 0,
         if s.flags &&& 2 ≠ 0 ∧ s.size < MINSIGSTKSZ then proc
           else if s.flags ^^^ (s.flags &&& 0x8000002) ≠ 0 then proc
           else if proc.sigaltstack.flags &&& ONSTACK ≠ 0 then proc
           else { proc with sigaltstack := s },
         oldOut, t + 1⟩ := by
    intro oldOut t
    simp only [sigaltstackStore]
    by_cases hA : s.flags &&& 2 ≠ 0 ∧ s.size < MINSIGSTKSZ
    · simp only [if_pos hA]
    · simp only [if_neg hA]
      by_cases hB : s.flags ^^^ (s.flags &&& 0x8000002) ≠ 0
      · simp only [if_pos hB]
      · simp only [if_neg hB]
        by_cases hC : proc.sigaltstack.flags &&& ONSTACK ≠ 0
        · simp only [if_pos hC]
        · simp only [if_neg hC]
  cases old_ss with
  | bad => exact absurd rfl hb
  | null => simpa [sys_sigaltstack] using step none 0
  | addr => simpa [sys_sigaltstack] using step (some proc.sigaltstack) 1

/-- Claim C6: with a non-null validated new descriptor s,
sys_sigaltstack checks in order: guard/disable bit (value 2) set with
size below MINSIGSTKSZ fails OutOfMemory; any flag bit outside the
allowed AUTODISARM OR DISABLE mask 0x8000002 fails InvalidArgument;
a currently stored descriptor with ONSTACK set fails PermissionDenied
regardless of the (already screened) new contents; each failure leaves
the process record unchanged and success stores s. -/
theorem sigaltstack_spec (proc : Process) (s : SignalStack) (old_ss : WPtr)
    (hb : old_ss ≠ WPtr.bad) :
    ((s.flags &&& 2 ≠ 0 ∧ s.size < MINSIGSTKSZ) →
      (sys_sigaltstack proc (RPtr.addr s) old_ss).res = Except.error SysError.ENOMEM ∧
      (sys_sigaltstack proc (RPtr.addr s) old_ss).proc = proc) ∧
    (¬(s.flags &&& 2 ≠ 0 ∧ s.size < MINSIGSTKSZ) →
      s.flags ^^^ (s.flags &&& 0x8000002) ≠ 0 →
      (sys_sigaltstack proc (RPtr.addr s) old_ss).res = Except.error SysError.EINVAL ∧
      (sys_sigaltstack proc (RPtr.addr s) old_ss).proc = proc) ∧
    (¬(s.flags &&& 2 ≠ 0 ∧ s.size < MINSIGSTKSZ) →
      s.flags ^^^ (s.flags &&& 0x8000002) = 0 →
      proc.sigaltstack.flags &&& ONSTACK ≠ 0 →
      (sys_sigaltstack proc (RPtr.addr s) old_ss).res = Except.error SysError.EPERM ∧
      (sys_sigaltstack proc (RPtr.addr s) old_ss).proc = proc) ∧
    (¬(s.flags &&& 2 ≠ 0 ∧ s.size < MINSIGSTKSZ) →
      s.flags ^^^ (s.flags &&& 0x8000002) = 0 →
      proc.sigaltstack.flags &&& ONSTACK = 0 →
      (sys_sigaltstack proc (RPtr.addr s) old_ss).res = Except.ok 0 ∧
      (sys_sigaltstack proc (RPtr.addr s) old_ss).proc.sigaltstack = s) := by
  rw [sigaltstack_addr_eq proc s old_ss hb]
  refine ⟨fun h1 => ?_, fun h1 h2 => ?_, fun h1 h2 h3 => ?_, fun h1 h2 h3 => ?_⟩
  · simp only [if_pos h1]
    exact ⟨trivial, trivial⟩
  · simp only [if_neg h1, if_pos h2]
    exact ⟨trivial, trivial⟩
  · have h2n : ¬(s.flags ^^^ (s.flags &&& 0x8000002) ≠ 0) := fun hn => hn h2
    simp only [if_neg h1, if_neg h2n, if_pos h3]
    exact ⟨trivial, trivial⟩
  · have h2n : ¬(s.flags ^^^ (s.flags &&& 0x8000002) ≠ 0) := fun hn => hn h2
    have h3n : ¬(proc.sigaltstack.flags &&& ONSTACK ≠ 0) := fun hn => hn h3
    simp only [if_neg h1, if_neg h2n, if_neg h3n]
    exact ⟨trivial, trivial⟩

/-- Claim C6 witness: a guard-flagged descriptor of size 1024 is
rejected with OutOfMemory and the stored descriptor is unchanged. -/
theorem sigaltstack_spec_witness :
    (sys_sigaltstack procW (RPtr.addr ⟨0, 2, 1024⟩) WPtr.addr).res =
      Except.error SysError.ENOMEM ∧
    (sys_sigaltstack procW (RPtr.addr ⟨0, 2, 1024⟩) WPtr.addr).proc = procW :=
  (sigaltstack_spec procW ⟨0, 2, 1024⟩ WPtr.addr (by decide)).1 (by decide)

/-- Claim C2: sys_rt_sigreturn reads the SignalFrame at the fixed
offset 8 below the stack pointer, replaces the entire trap frame with
the frame's saved one, and derives its result from the restored rax
interpreted as signed: non-negative v yields success v; negative -e
yields the error kind whose code is e via the ordinary syscall
error-code mapping.  No other frame content is consulted. -/
theorem sigreturn_spec (mem : Nat → SignalFrame) (tf : TrapFrame) :
    (∀ r tf2, sys_rt_sigreturn mem tf = some (r, tf2) →
      tf2 = (mem (tf.sp - 8)).tf) ∧
    (0 ≤ toI64 (mem (tf.sp - 8)).tf.rax →
      sys_rt_sigreturn mem tf =
        some (Except.ok (toI64 (mem (tf.sp - 8)).tf.rax).toNat, (mem (tf.sp - 8)).tf)) ∧
    (∀ e, toI64 (mem (tf.sp - 8)).tf.rax < 0 →
      sysErrorFromCode (-toI64 (mem (tf.sp - 8)).tf.rax) = some e →
      sys_rt_sigreturn mem tf = some (Except.error e, (mem (tf.sp - 8)).tf)) := by
  refine ⟨?_, ?_, ?_⟩
  · intro r tf2 h
    unfold sys_rt_sigreturn at h
    by_cases h0 : 0 ≤ toI64 (mem (tf.sp - 8)).tf.rax
    · rw [if_pos h0] at h
      exact (Prod.mk.inj (Option.some.inj h)).2.symm
    · rw [if_neg h0] at h
      cases hE : sysErrorFromCode (-toI64 (mem (tf.sp - 8)).tf.rax) with
      | none => rw [hE] at h; exact absurd h (by simp)
      | some e =>
          rw [hE] at h
          exact (Prod.mk.inj (Option.some.inj h)).2.symm
  · intro h0
    unfold sys_rt_sigreturn
    rw [if_pos h0]
  · intro e hneg hE
    unfold sys_rt_sigreturn
    rw [if_neg (by omega : ¬(0 ≤ toI64 (mem (tf.sp - 8)).tf.rax)), hE]

/-- Claim C2 witness: a frame whose saved rax holds the u64 encoding of
-3 (ESRCH's negated code) is decoded into the ESRCH error outcome with
the frame's trap state restored. -/
theorem sigreturn_spec_witness :
    sys_rt_sigreturn memErr3 tfW =
      some (Except.error SysError.ESRCH, (memErr3 (tfW.sp - 8)).tf) :=
  (sigreturn_spec memErr3 tfW).2.2 SysError.ESRCH (by decide) (by decide)

/-- Claim C9 counterexample: a frame whose saved rax encodes the
negative value -(2^20), whose magnitude is no error kind's code, makes
the FromPrimitive conversion fail, so the unwrap panics (modelled as
none) instead of returning a result. -/
theorem sigreturn_unwrap_cex :
    toI64 ((memHuge (tfW.sp - 8)).tf.rax) < 0 ∧
    sysErrorFromCode (-toI64 ((memHuge (tfW.sp - 8)).tf.rax)) = none ∧
    sys_rt_sigreturn memHuge tfW = none := by
  refine ⟨by decide, by decide, by decide⟩

/-- Claim C9 (amended): sys_rt_sigreturn terminates with a result
exactly when the frame's saved rax is non-negative as a signed value or
its magnitude is a known error code; for any other negative value the
errno conversion fails and the unwrap panics. -/
theorem sigreturn_total_iff (mem : Nat → SignalFrame) (tf : TrapFrame) :
    sys_rt_sigreturn mem tf = none ↔
      (toI64 (mem (tf.sp - 8)).tf.rax < 0 ∧
        sysErrorFromCode (-toI64 (mem (tf.sp - 8)).tf.rax) = none) := by
  unfold sys_rt_sigreturn
  by_cases h0 : 0 ≤ toI64 (mem (tf.sp - 8)).tf.rax
  · rw [if_pos h0]
    constructor
    · intro h; exact absurd h (by simp)
    · rintro ⟨hneg, -⟩; omega
  · rw [if_neg h0]
    cases hE : sysErrorFromCode (-toI64 (mem (tf.sp - 8)).tf.rax) with
    | none => exact ⟨fun _ => ⟨by omega, rfl⟩, fun _ => rfl⟩
    | some e =>
        constructor
        · intro h; exact absurd h (by simp)
        · rintro ⟨-, habs⟩
          exact absurd habs (by simp)

theorem mem_targets_of_map (info : Siginfo) (l : List Nat) (d : Delivery)
    (hd : d ∈ l.map (fun p => (⟨p, -1, info⟩ : Delivery))) :
    d.hint = -1 ∧ d.info = info := by
  rcases List.mem_map.mp hd with ⟨p, -, rfl⟩
  exact ⟨rfl, rfl⟩

theorem map_target_deliveries (info : Siginfo) (l : List Nat) :
    (l.map (fun p => (⟨p, -1, info⟩ : Delivery))).map Delivery.target = l := by
  induction l with
  | nil => rfl
  | cons x xs ih =>
      simp only [List.map_cons, List.cons.injEq]
      exact ⟨trivial, ih⟩

/-- Claim C1 counterexample: with one live process 10 in group 5 and
pid = -(2^32 + 5), the group abs(pid) = 4294967301 is empty, so the
claim requires NoSuchProcess; but the source truncates -pid with an
`as i32` cast to group 5, delivers to process 10 and returns 0. -/
theorem sys_kill_group_trunc_cex :
    process_group envGrp 4294967301 = [] ∧
    sys_kill envGrp 0 (-4294967301) 15 =
      ⟨Except.ok 0, [⟨10, -1, mkSiginfo 15⟩]⟩ := by
  exact ⟨by decide, by decide⟩

/-- Claim C1 (amended): sys_kill with a valid signum resolves targets
by the sign of pid — pid > 0 one process else NoSuchProcess; pid = 0
the caller's group; pid = -1 every table entry surviving the liveness
upgrade; pid < -1 the group identified by -pid truncated to a signed
32-bit id (equal to abs(pid) whenever abs(pid) fits in an i32), with
NoSuchProcess exactly when that group is empty — and every delivery
carries Siginfo with code SI_USER and thread hint -1, returning 0 on
success. -/
theorem sys_kill_targets (env : Env) (callerPgid pid : Int) (signum sg : Nat)
    (hv : signalFromUsize signum = some sg) :
    (∀ d ∈ (sys_kill env callerPgid pid signum).sent,
        d.hint = -1 ∧ d.info = mkSiginfo signum) ∧
    (0 < pid →
      (∀ p, process env pid.toNat = some p →
        sys_kill env callerPgid pid signum =
          ⟨Except.ok 0, [⟨p, -1, mkSiginfo signum⟩]⟩) ∧
      (process env pid.toNat = none →
        sys_kill env callerPgid pid signum = ⟨Except.error SysError.ESRCH, []⟩)) ∧
    (pid = 0 →
      (sys_kill env callerPgid pid signum).res = Except.ok 0 ∧
      (sys_kill env callerPgid pid signum).sent.map Delivery.target =
        process_group env callerPgid) ∧
    (pid = -1 →
      (sys_kill env callerPgid pid signum).res = Except.ok 0 ∧
      (sys_kill env callerPgid pid signum).sent.map Delivery.target =
        live_processes env) ∧
    (pid < -1 →
      (process_group env (toI32 (-pid)) = [] →
        sys_kill env callerPgid pid signum = ⟨Except.error SysError.ESRCH, []⟩) ∧
      (process_group env (toI32 (-pid)) ≠ [] →
        (sys_kill env callerPgid pid signum).res = Except.ok 0 ∧
        (sys_kill env callerPgid pid signum).sent.map Delivery.target =
          process_group env (toI32 (-pid)))) := by
  refine ⟨?_, ?_, ?_, ?_, ?_⟩
  · intro d hd
    simp only [sys_kill, hv] at hd
    by_cases hp : pid > 0
    · rw [if_pos hp] at hd
      cases hL : process env pid.toNat with
      | some p =>
          rw [hL] at hd
          rcases List.mem_singleton.mp hd with rfl
          exact ⟨rfl, rfl⟩
      | none => rw [hL] at hd; exact absurd hd (by simp)
    · rw [if_neg hp] at hd
      by_cases h0 : pid = 0
      · rw [if_pos h0] at hd
        exact mem_targets_of_map _ _ _ hd
      · rw [if_neg h0] at hd
        by_cases h1 : pid = -1
        · rw [if_pos h1] at hd
          exact mem_targets_of_map _ _ _ hd
        · rw [if_neg h1] at hd
          cases hG : process_group env (toI32 (-pid)) with
          | nil => rw [hG] at hd; exact absurd hd (by simp)
          | cons q l =>
              rw [hG] at hd
              exact mem_targets_of_map _ _ _ hd
  · intro hp
    constructor
    · intro p hL
      simp only [sys_kill, hv]
      rw [if_pos hp, hL]
    · intro hL
      simp only [sys_kill, hv]
      rw [if_pos hp, hL]
  · intro h0
    simp only [sys_kill, hv]
    rw [if_neg (by omega : ¬pid > 0), if_pos h0]
    exact ⟨rfl, map_target_deliveries _ _⟩
  · intro h1
    simp only [sys_kill, hv]
    rw [if_neg (by omega : ¬pid > 0), if_neg (by omega : ¬pid = 0), if_pos h1]
    exact ⟨rfl, map_target_deliveries _ _⟩
  · intro hlt
    constructor
    · intro hG
      simp only [sys_kill, hv]
      rw [if_neg (by omega : ¬pid > 0), if_neg (by omega : ¬pid = 0),
        if_neg (by omega : ¬pid = -1), hG]
    · intro hG
      simp only [sys_kill, hv]
      rw [if_neg (by omega : ¬pid > 0), if_neg (by omega : ¬pid = 0),
        if_neg (by omega : ¬pid = -1)]
      cases hGc : process_group env (toI32 (-pid)) with
      | nil => exact absurd hGc hG
      | cons q l =>
          exact ⟨rfl, map_target_deliveries (mkSiginfo signum) (q :: l)⟩

/-- Claim C1 witness: killing the negated group id -5 in an environment
whose group 5 holds exactly process 10 succeeds and signals exactly
that group. -/
theorem sys_kill_targets_witness :
    (sys_kill envGrp 0 (-5) 15).res = Except.ok 0 ∧
    (sys_kill envGrp 0 (-5) 15).sent.map Delivery.target =
      process_group envGrp (toI32 (-(-5))) :=
  ((sys_kill_targets envGrp 0 (-5) 15 15 (by decide)).2.2.2.2
    (by decide)).2 (by decide)

/-- Claim C8 counterexample: when the thread-to-process lookup resolves
tid = 2^64 - 1 (usize::MAX) to live process 10, the delivery's thread
hint is -1 — the process-directed broadcast hint — because the source
casts tid with `as isize`; the hint is not equal to tid, contradicting
"thread-hint equal to tid (never broadcast)". -/
theorem sys_tkill_hint_cex :
    process_of envWrap 18446744073709551615 = some 10 ∧
    (sys_tkill envWrap 18446744073709551615 15).sent =
      [⟨10, -1, mkSiginfo 15⟩] ∧
    (-1 : Int) ≠ ((18446744073709551615 : Nat) : Int) := by
  exact ⟨by decide, by decide, by decide⟩

/-- Claim C8 (amended): sys_tkill with a valid signum resolves the
owning process of tid via the external lookup, returns NoSuchProcess
when it fails, and otherwise delivers one Siginfo with code SI_USER
and thread hint `tid as isize` — equal to tid whenever tid < 2^63
(for larger tids the cast wraps negative) — returning 0; an unknown
signum returns InvalidArgument exactly as in kill. -/
theorem sys_tkill_targets (env : Env) (tid signum sg : Nat) :
    (signalFromUsize signum = none →
      sys_tkill env tid signum = ⟨Except.error SysError.EINVAL, []⟩) ∧
    (signalFromUsize signum = some sg →
      (process_of env tid = none →
        sys_tkill env tid signum = ⟨Except.error SysError.ESRCH, []⟩) ∧
      (∀ p, process_of env tid = some p →
        sys_tkill env tid signum =
          ⟨Except.ok 0, [⟨p, toI64 tid, mkSiginfo signum⟩]⟩ ∧
        (tid < 2 ^ 63 → toI64 tid = (tid : Int)))) := by
  constructor
  · intro h
    simp only [sys_tkill, h]
  · intro hv
    constructor
    · intro hN
      simp only [sys_tkill, hv, hN]
    · intro p hp
      refine ⟨by simp only [sys_tkill, hv, hp], fun hlt => ?_⟩
      unfold toI64
      rw [if_pos hlt]

/-- Claim C8 witness: tkill on thread 7 (owned by process 3) with
signal 15 delivers exactly one Siginfo to that thread and succeeds. -/
theorem sys_tkill_targets_witness :
    sys_tkill envThr 7 15 = ⟨Except.ok 0, [⟨3, toI64 7, mkSiginfo 15⟩]⟩ :=
  (((sys_tkill_targets envThr 7 15 15).2 (by decide)).2 3 (by decide)).1
